import Mathlib

/-!
Shallow embedding of the tyxiq_web server core: the account / news / project
in-memory storage (`MemStorage`), the authentication routes set up by
`setupAuth`, and the route handlers registered by `registerRoutes`.
Timestamps (`new Date()`) are modelled by an explicit `now : Nat` argument;
the password hash produced by the external bcrypt library is either a
function parameter (`hashF`, `cmp`) or the spec-modelled credential codec.
-/

namespace TyxiqWeb

/-- An account row, mirroring the `users` table of the shared schema:
id, username, password (hash), avatar, bio (both nullable), role, createdAt. -/
structure User where
  id : Nat
  username : String
  password : String
  avatar : Option String
  biog : Option String
  role : String
  createdAt : Nat
  deriving Repr, DecidableEq

/-- The insert shape accepted by `createUser` (`insertUserSchema` picks
username, password, role; role is optional since the column has a default). -/
structure InsertUser where
  username : String
  password : String
  role : Option String
  deriving Repr, DecidableEq

/-- The profile patch accepted by `updateUserProfile`
(`updateUserProfileSchema`: optional username, avatar, bio). -/
structure UpdateUserProfile where
  username : Option String
  avatar : Option String
  biog : Option String
  deriving Repr, DecidableEq

/-- A news row, mirroring the `news` table. -/
structure News where
  id : Nat
  title : String
  content : String
  files : List String
  userId : Nat
  createdAt : Nat
  updatedAt : Nat
  deriving Repr, DecidableEq

/-- The insert shape accepted by `createNews` (`insertNewsSchema`):
title, content, optional files, userId. -/
structure InsertNews where
  title : String
  content : String
  files : Option (List String)
  userId : Nat
  deriving Repr, DecidableEq

/-- A partial news update (`Partial<InsertNews>`), as passed to `updateNews`. -/
structure NewsUpdate where
  title : Option String
  content : Option String
  files : Option (List String)
  userId : Option Nat
  deriving Repr, DecidableEq

/-- A project row, mirroring the `projects` table. -/
structure Project where
  id : Nat
  title : String
  description : String
  imageUrl : String
  url : String
  files : List String
  userId : Nat
  createdAt : Nat
  updatedAt : Nat
  deriving Repr, DecidableEq

/-- The insert shape accepted by `createProject` (`insertProjectSchema`). -/
structure InsertProject where
  title : String
  description : String
  imageUrl : Option String
  url : Option String
  files : Option (List String)
  userId : Nat
  deriving Repr, DecidableEq

/-- A partial project update (`Partial<InsertProject>`). -/
structure ProjectUpdate where
  title : Option String
  description : Option String
  imageUrl : Option String
  url : Option String
  files : Option (List String)
  userId : Option Nat
  deriving Repr, DecidableEq

/-- The in-memory storage backend `MemStorage`: three `Map`s keyed by id
(modelled as lists in insertion order, every element's `id` being its key)
plus the three id counters. -/
structure MemStorage where
  users : List User
  newsItems : List News
  projectItems : List Project
  userId : Nat
  newsId : Nat
  projectId : Nat
  deriving Repr, DecidableEq

/-- `Map.set` keyed by `key`: replaces the entry with the same key in place,
otherwise appends (JS `Map` keeps insertion order and updates in place). -/
def setById {α : Type} (key : α → Nat) (l : List α) (x : α) : List α :=
  if l.any (fun v => key v = key x) then
    l.map (fun v => if key v = key x then x else v)
  else l ++ [x]

/-- The storage state produced by the `MemStorage` constructor. -/
def emptyS : MemStorage :=
  { users := [], newsItems := [], projectItems := []
    userId := 1, newsId := 1, projectId := 1 }

/-- `MemStorage.getUser(id)`: `this.users.get(id)`. -/
def MemStorage.getUser (s : MemStorage) (id : Nat) : Option User :=
  s.users.find? (fun u => u.id = id)

/-- `MemStorage.getUserByUsername`: `Array.from(this.users.values()).find(...)`. -/
def MemStorage.getUserByUsername (s : MemStorage) (username : String) : Option User :=
  s.users.find? (fun u => u.username = username)

/-- `MemStorage.getAllUsers()`: `Array.from(this.users.values())`. -/
def MemStorage.getAllUsers (s : MemStorage) : List User :=
  s.users

/-- `(role as string) || "user"`: JS `||` falls through on the falsy values
`undefined` and `""`. -/
def roleOrUser : Option String → String
  | none => "user"
  | some r => if r = "" then "user" else r

/-- `MemStorage.createUser`: takes the next id, destructures `role` out of the
insert shape, builds the user with `avatar: null`, `bio: null`,
`role: (role as string) || "user"`, and `set`s it into the map.
No uniqueness check is performed here. -/
def MemStorage.createUser (s : MemStorage) (ins : InsertUser) (now : Nat) :
    User × MemStorage :=
  let id := s.userId
  let user : User :=
    { id := id, username := ins.username, password := ins.password
      avatar := none, biog := none, role := roleOrUser ins.role, createdAt := now }
  (user, { s with users := setById User.id s.users user, userId := s.userId + 1 })

/-- `MemStorage.updateUserProfile`: `get` the user, return `undefined` if
absent, otherwise spread the patch over the user (`{...user, ...profile}`)
and `set` the result back. No uniqueness check on a changed username. -/
def MemStorage.updateUserProfile (s : MemStorage) (id : Nat)
    (p : UpdateUserProfile) : Option User × MemStorage :=
  match s.users.find? (fun u => u.id = id) with
  | none => (none, s)
  | some user =>
    let updated : User :=
      { user with
        username := p.username.getD user.username
        avatar := match p.avatar with | some a => some a | none => user.avatar
        biog := match p.biog with | some b => some b | none => user.biog }
    (some updated, { s with users := setById User.id s.users updated })

/-- `MemStorage.getAllNews()`. -/
def MemStorage.getAllNews (s : MemStorage) : List News :=
  s.newsItems

/-- `MemStorage.getNewsById(id)`: `this.newsItems.get(id)`. -/
def MemStorage.getNewsById (s : MemStorage) (id : Nat) : Option News :=
  s.newsItems.find? (fun n => n.id = id)

/-- `MemStorage.createNews`: next id, `files: newsItem.files || []`,
fresh createdAt/updatedAt. -/
def MemStorage.createNews (s : MemStorage) (ins : InsertNews) (now : Nat) :
    News × MemStorage :=
  let id := s.newsId
  let n : News :=
    { id := id, title := ins.title, content := ins.content
      files := ins.files.getD [], userId := ins.userId
      createdAt := now, updatedAt := now }
  (n, { s with newsItems := setById News.id s.newsItems n, newsId := s.newsId + 1 })

/-- `MemStorage.updateNews`: `get`, `undefined` if absent, otherwise spread
the partial update over the row and stamp `updatedAt`. -/
def MemStorage.updateNews (s : MemStorage) (id : Nat) (u : NewsUpdate)
    (now : Nat) : Option News × MemStorage :=
  match s.newsItems.find? (fun n => n.id = id) with
  | none => (none, s)
  | some n =>
    let updated : News :=
      { n with
        title := u.title.getD n.title
        content := u.content.getD n.content
        files := u.files.getD n.files
        userId := u.userId.getD n.userId
        updatedAt := now }
    (some updated, { s with newsItems := setById News.id s.newsItems updated })

/-- `MemStorage.deleteNews`: `Map.delete` — removes the keyed entry and
returns whether it was present. -/
def MemStorage.deleteNews (s : MemStorage) (id : Nat) : Bool × MemStorage :=
  (s.newsItems.any (fun n => n.id = id),
   { s with newsItems := s.newsItems.filter (fun n => n.id ≠ id) })

/-- `MemStorage.getAllProjects()`. -/
def MemStorage.getAllProjects (s : MemStorage) : List Project :=
  s.projectItems

/-- `MemStorage.getProjectById(id)`. -/
def MemStorage.getProjectById (s : MemStorage) (id : Nat) : Option Project :=
  s.projectItems.find? (fun p => p.id = id)

/-- `MemStorage.createProject`: next id, defaults `imageUrl`/`url` to `""`
and `files` to `[]` via `||`. -/
def MemStorage.createProject (s : MemStorage) (ins : InsertProject) (now : Nat) :
    Project × MemStorage :=
  let id := s.projectId
  let p : Project :=
    { id := id, title := ins.title, description := ins.description
      imageUrl := ins.imageUrl.getD "", url := ins.url.getD ""
      files := ins.files.getD [], userId := ins.userId
      createdAt := now, updatedAt := now }
  (p, { s with projectItems := setById Project.id s.projectItems p
               projectId := s.projectId + 1 })

/-- `MemStorage.updateProject`: spread the partial update, stamp `updatedAt`. -/
def MemStorage.updateProject (s : MemStorage) (id : Nat) (u : ProjectUpdate)
    (now : Nat) : Option Project × MemStorage :=
  match s.projectItems.find? (fun p => p.id = id) with
  | none => (none, s)
  | some p =>
    let updated : Project :=
      { p with
        title := u.title.getD p.title
        description := u.description.getD p.description
        imageUrl := u.imageUrl.getD p.imageUrl
        url := u.url.getD p.url
        files := u.files.getD p.files
        userId := u.userId.getD p.userId
        updatedAt := now }
    (some updated, { s with projectItems := setById Project.id s.projectItems updated })

/-- `MemStorage.deleteProject`: `Map.delete`. -/
def MemStorage.deleteProject (s : MemStorage) (id : Nat) : Bool × MemStorage :=
  (s.projectItems.any (fun p => p.id = id),
   { s with projectItems := s.projectItems.filter (fun p => p.id ≠ id) })

/-! ## HTTP layer: JSON payloads, responses, middleware, route handlers -/

/-- A JSON body, flattened to what the claims need: an object is its list of
top-level key/value pairs (values rendered as strings), an array of objects
is a list of such field lists, `empty` is an absent body (`res.send()`). -/
inductive Body where
  | obj : List (String × String) → Body
  | arr : List (List (String × String)) → Body
  | empty : Body
  deriving Repr, DecidableEq

/-- Does the payload contain a top-level field named `k` (in the object
itself, or in any element of an array of objects)? -/
def Body.hasKey : Body → String → Bool
  | .obj fs, k => fs.any (fun kv => kv.1 = k)
  | .arr items, k => items.any (fun fs => fs.any (fun kv => kv.1 = k))
  | .empty, _ => false

/-- An HTTP response: status code and JSON body. -/
structure HttpResponse where
  status : Nat
  body : Body
  deriving Repr, DecidableEq

/-- Render an optional (nullable) string field the way `res.json` would. -/
def optField : Option String → String
  | none => "null"
  | some v => v

/-- The JSON object serialized from a `User` row: every column, the password
hash included. -/
def userFields (u : User) : List (String × String) :=
  [("id", toString u.id), ("username", u.username), ("password", u.password),
   ("avatar", optField u.avatar), ("bio", optField u.biog), ("role", u.role),
   ("createdAt", toString u.createdAt)]

/-- Dropping the `password` key from an object: both
`const { password, ...safeUser } = user` and `delete safeUser.password`
produce the object with every key but `password`. -/
def omitPassword (fields : List (String × String)) : List (String × String) :=
  fields.filter (fun kv => kv.1 ≠ "password")

/-- The JSON object serialized from a `News` row. -/
def newsFields (n : News) : List (String × String) :=
  [("id", toString n.id), ("title", n.title), ("content", n.content),
   ("files", String.intercalate "," n.files), ("userId", toString n.userId),
   ("createdAt", toString n.createdAt), ("updatedAt", toString n.updatedAt)]

/-- The JSON object serialized from a `Project` row. -/
def projectFields (p : Project) : List (String × String) :=
  [("id", toString p.id), ("title", p.title), ("description", p.description),
   ("imageUrl", p.imageUrl), ("url", p.url),
   ("files", String.intercalate "," p.files), ("userId", toString p.userId),
   ("createdAt", toString p.createdAt), ("updatedAt", toString p.updatedAt)]

/-- A JSON error body `{ message: ... }`. -/
def msgBody (m : String) : Body := .obj [("message", m)]

/-- The `isAdmin` middleware: first `req.isAuthenticated()` (the caller is
`none` when unauthenticated), answered with 401; then `req.user?.role !==
"admin"`, answered with 403. `some r` means the chain stops with response
`r`; `none` means `next()` is called. -/
def isAdminGate (caller : Option User) : Option HttpResponse :=
  match caller with
  | none => some { status := 401, body := msgBody "Необходима авторизация" }
  | some u =>
    if u.role ≠ "admin" then
      some { status := 403, body := msgBody "Необходимы права администратора" }
    else none

/-- The `isAuthenticated` middleware: 401 when the caller is unauthenticated,
`next()` otherwise. -/
def isAuthenticatedGate (caller : Option User) : Option HttpResponse :=
  match caller with
  | none => some { status := 401, body := msgBody "Необходима авторизация" }
  | some _ => none

/-- The body of a `POST /api/register` request as the server consumes it:
`req.body.username`, `req.body.password`, and the spread of `req.body` into
`createUser` carrying the client-asserted optional `role`. -/
structure RegisterBody where
  username : String
  password : String
  role : Option String
  deriving Repr, DecidableEq

/-- `POST /api/register`: look up the username; if taken answer 400
("Имя пользователя уже занято") leaving the store untouched; otherwise
`createUser({...req.body, password: await hashPassword(req.body.password)})`,
log the session in, and answer 201 with the user minus its password.
`hashF` stands for the bcrypt `hashPassword` call. -/
def registerRoute (hashF : String → String) (s : MemStorage) (b : RegisterBody)
    (now : Nat) : HttpResponse × MemStorage :=
  match s.getUserByUsername b.username with
  | some _ => ({ status := 400, body := msgBody "Имя пользователя уже занято" }, s)
  | none =>
    let (user, s2) := s.createUser
      { username := b.username, password := hashF b.password, role := b.role } now
    ({ status := 201, body := .obj (omitPassword (userFields user)) }, s2)

/-- The passport `LocalStrategy` verify callback: look the user up by
username; `done(null, false)` when the user is absent or `comparePasswords`
fails, `done(null, user)` otherwise. `cmp` stands for the bcrypt
`comparePasswords` call. -/
def localStrategy (cmp : String → String → Bool) (s : MemStorage)
    (username password : String) : Option User :=
  match s.getUserByUsername username with
  | none => none
  | some u => if cmp password u.password then some u else none

/-- `POST /api/login`: `passport.authenticate("local", ...)`; a falsy user
answers 401 "Неверное имя пользователя или пароль", otherwise the session is
logged in and the user minus its password is returned with 200. -/
def loginRoute (cmp : String → String → Bool) (s : MemStorage)
    (username password : String) : HttpResponse :=
  match localStrategy cmp s username password with
  | none => { status := 401, body := msgBody "Неверное имя пользователя или пароль" }
  | some u => { status := 200, body := .obj (omitPassword (userFields u)) }

/-- `GET /api/user`: 401 "Не авторизован" when unauthenticated, otherwise
`req.user` minus its password. -/
def currentUserRoute (caller : Option User) : HttpResponse :=
  match caller with
  | none => { status := 401, body := msgBody "Не авторизован" }
  | some u => { status := 200, body := .obj (omitPassword (userFields u)) }

/-- `GET /api/users` (behind `isAdmin`): maps `getAllUsers()` through
`const { password, ...safeUser } = user`. -/
def getUsersRoute (caller : Option User) (s : MemStorage) : HttpResponse :=
  match isAdminGate caller with
  | some resp => resp
  | none =>
    { status := 200
      body := .arr (s.getAllUsers.map (fun u => omitPassword (userFields u))) }

/-- `PUT /api/users/profile` (behind `isAuthenticated` and
`validateRequest(updateUserProfileSchema)`): `storage.updateUserProfile(req.user.id,
req.body)`; 404 when it returns `undefined`, otherwise the updated user minus
its password. -/
def updateProfileRoute (caller : User) (s : MemStorage) (p : UpdateUserProfile) :
    HttpResponse × MemStorage :=
  match s.updateUserProfile caller.id p with
  | (none, s2) => ({ status := 404, body := msgBody "Пользователь не найден" }, s2)
  | (some u, s2) => ({ status := 200, body := .obj (omitPassword (userFields u)) }, s2)

/-- `POST /api/news` (behind `isAdmin`): `{...req.body, userId: req.user!.id}`
into `createNews`, answered 201 with the created row. -/
def postNewsRoute (caller : User) (s : MemStorage) (b : InsertNews) (now : Nat) :
    HttpResponse × MemStorage :=
  match isAdminGate (some caller) with
  | some resp => (resp, s)
  | none =>
    let (created, s2) := s.createNews { b with userId := caller.id } now
    ({ status := 201, body := .obj (newsFields created) }, s2)

/-- `PUT /api/news/:id` (behind `isAuthenticated`): 404 when the item is
absent; 403 when the caller is not an admin and not the item's owner;
otherwise `updateNews` and `res.json` of its result. -/
def putNewsRoute (caller : User) (s : MemStorage) (nid : Nat) (b : NewsUpdate)
    (now : Nat) : HttpResponse × MemStorage :=
  match s.getNewsById nid with
  | none => ({ status := 404, body := msgBody "Новость не найдена" }, s)
  | some item =>
    if caller.role ≠ "admin" ∧ item.userId ≠ caller.id then
      ({ status := 403, body := msgBody "У вас нет прав на редактирование этой новости" }, s)
    else
      match s.updateNews nid b now with
      | (some updated, s2) => ({ status := 200, body := .obj (newsFields updated) }, s2)
      | (none, s2) => ({ status := 200, body := .empty }, s2)

/-- `DELETE /api/news/:id` (behind `isAuthenticated`): 404 when absent, 403
for a non-admin non-owner, otherwise `deleteNews` — 204 on `true`,
404 on `false`. -/
def deleteNewsRoute (caller : User) (s : MemStorage) (nid : Nat) :
    HttpResponse × MemStorage :=
  match s.getNewsById nid with
  | none => ({ status := 404, body := msgBody "Новость не найдена" }, s)
  | some item =>
    if caller.role ≠ "admin" ∧ item.userId ≠ caller.id then
      ({ status := 403, body := msgBody "У вас нет прав на удаление этой новости" }, s)
    else
      let (ok, s2) := s.deleteNews nid
      if ok then ({ status := 204, body := .empty }, s2)
      else ({ status := 404, body := msgBody "Новость не найдена" }, s2)

/-- `POST /api/projects` (behind `isAdmin`): `{...req.body, userId:
req.user!.id}` into `createProject`, answered 201. -/
def postProjectRoute (caller : User) (s : MemStorage) (b : InsertProject)
    (now : Nat) : HttpResponse × MemStorage :=
  match isAdminGate (some caller) with
  | some resp => (resp, s)
  | none =>
    let (created, s2) := s.createProject { b with userId := caller.id } now
    ({ status := 201, body := .obj (projectFields created) }, s2)

/-- `PUT /api/projects/:id` (behind `isAuthenticated`): 404 / 403 /
update as for news. -/
def putProjectRoute (caller : User) (s : MemStorage) (pid : Nat)
    (b : ProjectUpdate) (now : Nat) : HttpResponse × MemStorage :=
  match s.getProjectById pid with
  | none => ({ status := 404, body := msgBody "Проект не найден" }, s)
  | some item =>
    if caller.role ≠ "admin" ∧ item.userId ≠ caller.id then
      ({ status := 403, body := msgBody "У вас нет прав на редактирование этого проекта" }, s)
    else
      match s.updateProject pid b now with
      | (some updated, s2) => ({ status := 200, body := .obj (projectFields updated) }, s2)
      | (none, s2) => ({ status := 200, body := .empty }, s2)

/-- `DELETE /api/projects/:id` (behind `isAuthenticated`): 404 / 403 /
delete as for news. -/
def deleteProjectRoute (caller : User) (s : MemStorage) (pid : Nat) :
    HttpResponse × MemStorage :=
  match s.getProjectById pid with
  | none => ({ status := 404, body := msgBody "Проект не найден" }, s)
  | some item =>
    if caller.role ≠ "admin" ∧ item.userId ≠ caller.id then
      ({ status := 403, body := msgBody "У вас нет прав на удаление этого проекта" }, s)
    else
      let (ok, s2) := s.deleteProject pid
      if ok then ({ status := 204, body := .empty }, s2)
      else ({ status := 404, body := msgBody "Проект не найден" }, s2)

/-! ## Credential codec, modelled from the spec -/

/-- Modelled from the spec: the body of `hashPassword`/`comparePasswords`
delegates to the external bcrypt library, which is not part of this
repository. Per the spec a digest embeds the salt and parameters used to
produce it; we model it as the salt plus the deterministic tag the salted
one-way function derives from salt and plaintext. -/
structure Digest where
  salt : String
  tag : String
  deriving Repr, DecidableEq

/-- Modelled from the spec: `hash(plaintext)` applies a salted one-way
function; each call draws a fresh salt, modelled as an explicit argument.
The tag deterministically combines the embedded salt with the plaintext. -/
def hashPassword (salt plaintext : String) : Digest :=
  { salt := salt, tag := salt ++ plaintext }

/-- Modelled from the spec: `verify(plaintext, digest)` is true iff the
plaintext, combined with the embedded salt of the digest, reproduces the
digest. -/
def comparePasswords (supplied : String) (stored : Digest) : Bool :=
  stored.salt ++ supplied == stored.tag

/-! ## Concrete sample data (used to instantiate the theorems) -/

/-- A standard-role account. -/
def aliceU : User :=
  { id := 1, username := "alice", password := "ha", avatar := none
    biog := none, role := "user", createdAt := 0 }

/-- A second standard-role account. -/
def bobU : User :=
  { id := 2, username := "bob", password := "hb", avatar := none
    biog := none, role := "user", createdAt := 0 }

/-- An administrator account. -/
def adminU : User :=
  { id := 7, username := "root7", password := "hr", avatar := none
    biog := none, role := "admin", createdAt := 0 }

/-- A news item owned by `bobU`. -/
def newsEx : News :=
  { id := 1, title := "t", content := "c", files := [], userId := 2
    createdAt := 0, updatedAt := 0 }

/-- A project owned by `aliceU`. -/
def projEx : Project :=
  { id := 1, title := "p", description := "d", imageUrl := "", url := ""
    files := [], userId := 1, createdAt := 0, updatedAt := 0 }

/-- A populated storage state: two users, one news item, one project. -/
def storeEx : MemStorage :=
  { users := [aliceU, bobU], newsItems := [newsEx], projectItems := [projEx]
    userId := 3, newsId := 2, projectId := 2 }

/-- A concrete stand-in for the hashing parameter. -/
def hashEx : String → String := fun p => "h:" ++ p

/-- A concrete stand-in for the password-comparison parameter. -/
def cmpEx : String → String → Bool := fun supplied stored => supplied == stored

/-- An empty profile patch. -/
def patchNone : UpdateUserProfile := { username := none, avatar := none, biog := none }

/-- A profile patch setting username and bio only. -/
def patchEx : UpdateUserProfile :=
  { username := some "al2", avatar := none, biog := some "hey" }

/-- An empty news update. -/
def newsUpdNone : NewsUpdate :=
  { title := none, content := none, files := none, userId := none }

/-- An empty project update. -/
def projUpdNone : ProjectUpdate :=
  { title := none, description := none, imageUrl := none, url := none
    files := none, userId := none }

/-! ## Helper lemmas -/

/-- Removing the `password` key really removes it. -/
theorem omitPassword_no_password (l : List (String × String)) :
    (omitPassword l).any (fun kv => kv.1 = "password") = false := by
  simp only [omitPassword, List.any_eq_false, decide_eq_true_eq]
  intro kv hkv
  have := List.of_mem_filter hkv
  simpa using this

/-- No element of a list of password-stripped user objects carries the
`password` key. -/
theorem map_omit_no_password (l : List User) :
    ((l.map (fun u => omitPassword (userFields u))).any
      (fun fs => fs.any (fun kv => kv.1 = "password"))) = false := by
  induction l with
  | nil => rfl
  | cons u t ih =>
    simp only [List.map_cons, List.any_cons, ih, omitPassword_no_password]
    simp

/-- `Map.set` with a key absent from the map appends. -/
theorem setById_append {α : Type} (key : α → Nat) (l : List α) (x : α)
    (h : ∀ v ∈ l, key v ≠ key x) : setById key l x = l ++ [x] := by
  have : l.any (fun v => key v = key x) = false := by
    simp only [List.any_eq_false, decide_eq_true_eq]
    intro v hv
    exact h v hv
  simp [setById, this]

/-- Every element of `Map.set l x` is an old element or `x` itself. -/
theorem mem_setById {α : Type} (key : α → Nat) (l : List α) (x y : α)
    (h : y ∈ setById key l x) : y ∈ l ∨ y = x := by
  unfold setById at h
  by_cases hc : l.any (fun v => key v = key x) = true
  · simp [hc] at h
    obtain ⟨v, hv, hvy⟩ := h
    by_cases he : key v = key x
    · right
      simpa [he] using hvy.symm
    · left
      rw [if_neg he] at hvy
      exact hvy ▸ hv
  · simp [hc] at h
    rcases h with h | h
    · exact Or.inl h
    · exact Or.inr h

/-- Left cancellation for string concatenation. -/
theorem string_append_cancel (s p q : String) (h : s ++ p = s ++ q) : p = q := by
  cases s with
  | mk sd =>
    cases p with
    | mk pd =>
      cases q with
      | mk qd =>
        have hd : sd ++ pd = sd ++ qd := by
          have := congrArg String.data h
          simpa using this
        have : pd = qd := List.append_cancel_left hd
        exact congrArg String.mk this

/-! ## Claims -/

/-- C4: for every request to the registration, login, current-identity,
users-list, and profile-update endpoints, the response payload never
contains the password hash field of any account. -/
theorem responses_never_contain_password :
    (∀ (hashF : String → String) (s : MemStorage) (b : RegisterBody) (now : Nat),
      ((registerRoute hashF s b now).1.body.hasKey "password") = false)
  ∧ (∀ (cmp : String → String → Bool) (s : MemStorage) (u p : String),
      ((loginRoute cmp s u p).body.hasKey "password") = false)
  ∧ (∀ (caller : Option User),
      ((currentUserRoute caller).body.hasKey "password") = false)
  ∧ (∀ (caller : Option User) (s : MemStorage),
      ((getUsersRoute caller s).body.hasKey "password") = false)
  ∧ (∀ (caller : User) (s : MemStorage) (p : UpdateUserProfile),
      ((updateProfileRoute caller s p).1.body.hasKey "password") = false) := by
  refine ⟨?_, ?_, ?_, ?_, ?_⟩
  · intro hashF s b now
    cases h : s.getUserByUsername b.username <;>
      simp [registerRoute, h, Body.hasKey, msgBody, MemStorage.createUser,
        omitPassword_no_password]
  · intro cmp s u p
    cases h : localStrategy cmp s u p <;>
      simp [loginRoute, h, Body.hasKey, msgBody, omitPassword_no_password]
  · intro caller
    cases caller <;>
      simp [currentUserRoute, Body.hasKey, msgBody, omitPassword_no_password]
  · intro caller s
    cases caller with
    | none => simp [getUsersRoute, isAdminGate, Body.hasKey, msgBody]
    | some u =>
      by_cases hr : u.role = "admin" <;>
        simp [getUsersRoute, isAdminGate, hr, Body.hasKey, msgBody,
          MemStorage.getAllUsers, map_omit_no_password]
  · intro caller s p
    cases h : s.updateUserProfile caller.id p with
    | mk res s2 =>
      cases res <;>
        simp [updateProfileRoute, h, Body.hasKey, msgBody, omitPassword_no_password]

/-- C9: on an admin-gated route an unauthenticated caller always receives
the 401 response, never 403; the 403 response arises exactly for an
authenticated caller whose role is not admin — the authentication check
precedes the role check. -/
theorem admin_gate_checks_authentication_first :
    (∀ r, isAdminGate none = some r → r.status = 401)
  ∧ (∀ (caller : Option User) (r : HttpResponse),
      isAdminGate caller = some r → r.status = 403 →
      ∃ u, caller = some u ∧ u.role ≠ "admin")
  ∧ (∀ u : User, u.role ≠ "admin" →
      ∃ r, isAdminGate (some u) = some r ∧ r.status = 403) := by
  refine ⟨?_, ?_, ?_⟩
  · intro r h
    simp only [isAdminGate, Option.some_inj] at h
    rw [← h]
  · intro caller r h h403
    cases caller with
    | none =>
      simp only [isAdminGate, Option.some_inj] at h
      rw [← h] at h403
      simp at h403
    | some u =>
      by_cases hr : u.role = "admin"
      · simp [isAdminGate, hr] at h
      · exact ⟨u, rfl, hr⟩
  · intro u hr
    refine ⟨{ status := 403, body := msgBody "Необходимы права администратора" }, ?_, rfl⟩
    simp [isAdminGate, hr]

/-- Witness for C9: the gate applied to the non-admin `aliceU` concretely
yields the 403 case. -/
theorem admin_gate_checks_authentication_first_witness :
    ∃ u, (some aliceU : Option User) = some u ∧ u.role ≠ "admin" :=
  admin_gate_checks_authentication_first.2.1 (some aliceU)
    { status := 403, body := msgBody "Необходимы права администратора" }
    (by decide) (by decide)

/-- C1: the registration route passes the client-asserted `role` straight
into `createUser`, which stores it verbatim — two registration requests
differing only in the client-supplied role produce accounts with different
stored roles, so the claimed hyperproperty fails on the code. -/
theorem register_stores_client_role_verbatim :
    ((registerRoute hashEx emptyS
        { username := "eve", password := "pw", role := some "user" } 0).2.users.map
      User.role = ["user"])
  ∧ ((registerRoute hashEx emptyS
        { username := "eve", password := "pw", role := some "admin" } 0).2.users.map
      User.role = ["admin"]) := by decide

/-- C2 counterexample: `MemStorage.createUser` performs no uniqueness check —
called with a username already stored it succeeds (returns a created account)
and leaves the store holding two accounts with the same username, refuting
"createUser fails with ConflictError and leaves the store unchanged". -/
theorem createUser_accepts_duplicate_username :
    ((storeEx.createUser { username := "alice", password := "h9", role := none } 0).2.users.map
      User.username = ["alice", "bob", "alice"])
  ∧ ((storeEx.createUser { username := "alice", password := "h9", role := none } 0).1.username
      = "alice") := by decide

/-- C2 (amended): the uniqueness check lives in the registration route, not
in `createUser`: when the username is already stored the route answers 400
and leaves the store unchanged; when it is fresh the route answers 201 and
appends exactly one account, with an identifier distinct from every stored
one and role defaulting to `user` when unspecified. -/
theorem register_conflict_and_fresh (hashF : String → String) (s : MemStorage)
    (b : RegisterBody) (now : Nat)
    (hinv : ∀ u ∈ s.users, u.id < s.userId) :
    ((s.getUserByUsername b.username).isSome →
      (registerRoute hashF s b now).1.status = 400
      ∧ (registerRoute hashF s b now).2 = s)
  ∧ (s.getUserByUsername b.username = none →
      (registerRoute hashF s b now).1.status = 201
      ∧ ∃ nu, (registerRoute hashF s b now).2.users = s.users ++ [nu]
          ∧ (∀ u ∈ s.users, u.id ≠ nu.id)
          ∧ nu.username = b.username
          ∧ (b.role = none → nu.role = "user")) := by
  constructor
  · intro hsome
    obtain ⟨u, hu⟩ := Option.isSome_iff_exists.mp hsome
    simp [registerRoute, hu]
  · intro hnone
    have happ : setById User.id s.users
        { id := s.userId, username := b.username, password := hashF b.password
          avatar := none, biog := none, role := roleOrUser b.role, createdAt := now }
        = s.users ++
          [{ id := s.userId, username := b.username, password := hashF b.password
             avatar := none, biog := none, role := roleOrUser b.role, createdAt := now }] := by
      apply setById_append
      intro v hv
      exact Nat.ne_of_lt (hinv v hv)
    refine ⟨by simp [registerRoute, hnone, MemStorage.createUser], ?_⟩
    refine ⟨{ id := s.userId, username := b.username, password := hashF b.password
              avatar := none, biog := none, role := roleOrUser b.role, createdAt := now },
            ?_, ?_, rfl, ?_⟩
    · simp [registerRoute, hnone, MemStorage.createUser]
      exact happ
    · intro u hu
      exact Nat.ne_of_lt (hinv u hu)
    · intro hrole
      simp [hrole, roleOrUser]

/-- Witness for C2: registering `eve` against the empty store concretely
takes the fresh branch: 201, one appended account with role `user`. -/
theorem register_conflict_and_fresh_witness :
    ((emptyS.getUserByUsername "eve").isSome →
      (registerRoute hashEx emptyS { username := "eve", password := "pw", role := none } 0).1.status = 400
      ∧ (registerRoute hashEx emptyS { username := "eve", password := "pw", role := none } 0).2 = emptyS)
  ∧ (emptyS.getUserByUsername "eve" = none →
      (registerRoute hashEx emptyS { username := "eve", password := "pw", role := none } 0).1.status = 201
      ∧ ∃ nu, (registerRoute hashEx emptyS { username := "eve", password := "pw", role := none } 0).2.users
            = emptyS.users ++ [nu]
          ∧ (∀ u ∈ emptyS.users, u.id ≠ nu.id)
          ∧ nu.username = "eve"
          ∧ ((none : Option String) = none → nu.role = "user")) :=
  register_conflict_and_fresh hashEx emptyS
    { username := "eve", password := "pw", role := none } 0 (by decide)

/-- C3: the profile-update path performs no username-uniqueness check:
starting from a store whose usernames are pairwise distinct, `bobU` updating
his profile username to `alice` succeeds (200) and leaves two stored
accounts with the same username. -/
theorem profile_update_breaks_username_uniqueness :
    ((storeEx.users.map User.username).Nodup)
  ∧ ((updateProfileRoute bobU storeEx
        { username := some "alice", avatar := none, biog := none }).1.status = 200)
  ∧ ¬(((updateProfileRoute bobU storeEx
        { username := some "alice", avatar := none, biog := none }).2.users.map
      User.username).Nodup) := by decide

/-- The status of `PUT /api/news/:id` on an existing item is decided by the
admin-or-owner condition of the code. -/
theorem putNewsRoute_status (caller : User) (s : MemStorage) (nid : Nat)
    (nb : NewsUpdate) (now : Nat) (nitem : News)
    (hn : s.getNewsById nid = some nitem) :
    (putNewsRoute caller s nid nb now).1.status =
      if caller.role ≠ "admin" ∧ nitem.userId ≠ caller.id then 403 else 200 := by
  have hn' : s.newsItems.find? (fun n => n.id = nid) = some nitem := hn
  by_cases hc : caller.role ≠ "admin" ∧ nitem.userId ≠ caller.id
  · simp [putNewsRoute, hn, hc]
  · simp [putNewsRoute, hn, hc, MemStorage.updateNews, hn']

/-- The status of `DELETE /api/news/:id` on an existing item is decided by
the admin-or-owner condition of the code. -/
theorem deleteNewsRoute_status (caller : User) (s : MemStorage) (nid : Nat)
    (nitem : News) (hn : s.getNewsById nid = some nitem) :
    (deleteNewsRoute caller s nid).1.status =
      if caller.role ≠ "admin" ∧ nitem.userId ≠ caller.id then 403 else 204 := by
  have hn' : s.newsItems.find? (fun n => n.id = nid) = some nitem := hn
  have hmem : nitem ∈ s.newsItems := List.mem_of_find?_eq_some hn'
  have hpred : nitem.id = nid := by simpa using List.find?_some hn'
  have hany : s.newsItems.any (fun n => n.id = nid) = true := by
    simp only [List.any_eq_true, decide_eq_true_eq]
    exact ⟨nitem, hmem, hpred⟩
  by_cases hc : caller.role ≠ "admin" ∧ nitem.userId ≠ caller.id
  · simp [deleteNewsRoute, hn, hc]
  · simp [deleteNewsRoute, hn, hc, MemStorage.deleteNews, hany]

/-- The status of `PUT /api/projects/:id` on an existing project is decided
by the admin-or-owner condition of the code. -/
theorem putProjectRoute_status (caller : User) (s : MemStorage) (pid : Nat)
    (pb : ProjectUpdate) (now : Nat) (pitem : Project)
    (hp : s.getProjectById pid = some pitem) :
    (putProjectRoute caller s pid pb now).1.status =
      if caller.role ≠ "admin" ∧ pitem.userId ≠ caller.id then 403 else 200 := by
  have hp' : s.projectItems.find? (fun p => p.id = pid) = some pitem := hp
  by_cases hc : caller.role ≠ "admin" ∧ pitem.userId ≠ caller.id
  · simp [putProjectRoute, hp, hc]
  · simp [putProjectRoute, hp, hc, MemStorage.updateProject, hp']

/-- The status of `DELETE /api/projects/:id` on an existing project is
decided by the admin-or-owner condition of the code. -/
theorem deleteProjectRoute_status (caller : User) (s : MemStorage) (pid : Nat)
    (pitem : Project) (hp : s.getProjectById pid = some pitem) :
    (deleteProjectRoute caller s pid).1.status =
      if caller.role ≠ "admin" ∧ pitem.userId ≠ caller.id then 403 else 204 := by
  have hp' : s.projectItems.find? (fun p => p.id = pid) = some pitem := hp
  have hmem : pitem ∈ s.projectItems := List.mem_of_find?_eq_some hp'
  have hpred : pitem.id = pid := by simpa using List.find?_some hp'
  have hany : s.projectItems.any (fun p => p.id = pid) = true := by
    simp only [List.any_eq_true, decide_eq_true_eq]
    exact ⟨pitem, hmem, hpred⟩
  by_cases hc : caller.role ≠ "admin" ∧ pitem.userId ≠ caller.id
  · simp [deleteProjectRoute, hp, hc]
  · simp [deleteProjectRoute, hp, hc, MemStorage.deleteProject, hany]

/-- C5: for every resolved identity and every existing news item or project,
update and delete are allowed (200 / 204) iff the caller is an admin or the
caller's id equals the resource's owning userId, and denied with 403
otherwise — across the full {owner, other-user, admin} ×
{own resource, others' resource} matrix. -/
theorem owner_or_admin_matrix (caller : User) (s : MemStorage)
    (nid pid : Nat) (nb : NewsUpdate) (pb : ProjectUpdate) (now : Nat)
    (nitem : News) (pitem : Project)
    (hn : s.getNewsById nid = some nitem)
    (hp : s.getProjectById pid = some pitem) :
    (((putNewsRoute caller s nid nb now).1.status = 403 ↔
        ¬(caller.role = "admin" ∨ nitem.userId = caller.id))
      ∧ ((caller.role = "admin" ∨ nitem.userId = caller.id) →
        (putNewsRoute caller s nid nb now).1.status = 200))
  ∧ (((deleteNewsRoute caller s nid).1.status = 403 ↔
        ¬(caller.role = "admin" ∨ nitem.userId = caller.id))
      ∧ ((caller.role = "admin" ∨ nitem.userId = caller.id) →
        (deleteNewsRoute caller s nid).1.status = 204))
  ∧ (((putProjectRoute caller s pid pb now).1.status = 403 ↔
        ¬(caller.role = "admin" ∨ pitem.userId = caller.id))
      ∧ ((caller.role = "admin" ∨ pitem.userId = caller.id) →
        (putProjectRoute caller s pid pb now).1.status = 200))
  ∧ (((deleteProjectRoute caller s pid).1.status = 403 ↔
        ¬(caller.role = "admin" ∨ pitem.userId = caller.id))
      ∧ ((caller.role = "admin" ∨ pitem.userId = caller.id) →
        (deleteProjectRoute caller s pid).1.status = 204)) := by
  have e1 := putNewsRoute_status caller s nid nb now nitem hn
  have e2 := deleteNewsRoute_status caller s nid nitem hn
  have e3 := putProjectRoute_status caller s pid pb now pitem hp
  have e4 := deleteProjectRoute_status caller s pid pitem hp
  by_cases hA : caller.role = "admin" <;>
    by_cases hO : nitem.userId = caller.id <;>
      by_cases hP : pitem.userId = caller.id <;>
        simp [e1, e2, e3, e4, hA, hO, hP]

/-- Witness for C5: the non-admin `bobU` against his own news item and
`aliceU`'s project in `storeEx`: allowed on the news, denied 403 on the
project. -/
theorem owner_or_admin_matrix_witness :
    (((putNewsRoute bobU storeEx 1 newsUpdNone 5).1.status = 403 ↔
        ¬(bobU.role = "admin" ∨ newsEx.userId = bobU.id))
      ∧ ((bobU.role = "admin" ∨ newsEx.userId = bobU.id) →
        (putNewsRoute bobU storeEx 1 newsUpdNone 5).1.status = 200))
  ∧ (((deleteNewsRoute bobU storeEx 1).1.status = 403 ↔
        ¬(bobU.role = "admin" ∨ newsEx.userId = bobU.id))
      ∧ ((bobU.role = "admin" ∨ newsEx.userId = bobU.id) →
        (deleteNewsRoute bobU storeEx 1).1.status = 204))
  ∧ (((putProjectRoute bobU storeEx 1 projUpdNone 5).1.status = 403 ↔
        ¬(bobU.role = "admin" ∨ projEx.userId = bobU.id))
      ∧ ((bobU.role = "admin" ∨ projEx.userId = bobU.id) →
        (putProjectRoute bobU storeEx 1 projUpdNone 5).1.status = 200))
  ∧ (((deleteProjectRoute bobU storeEx 1).1.status = 403 ↔
        ¬(bobU.role = "admin" ∨ projEx.userId = bobU.id))
      ∧ ((bobU.role = "admin" ∨ projEx.userId = bobU.id) →
        (deleteProjectRoute bobU storeEx 1).1.status = 204)) :=
  owner_or_admin_matrix bobU storeEx 1 1 newsUpdNone projUpdNone 5 newsEx projEx
    (by decide) (by decide)

/-- C6: a login with an unknown username and a login with a known username
but wrong password produce the same response — the same 401 status and the
same message — so the two failure cases are indistinguishable to the
caller. -/
theorem login_failures_indistinguishable (cmp : String → String → Bool)
    (s : MemStorage) (u1 p1 u2 p2 : String) (a : User)
    (h1 : s.getUserByUsername u1 = none)
    (h2 : s.getUserByUsername u2 = some a)
    (h3 : cmp p2 a.password = false) :
    loginRoute cmp s u1 p1 = loginRoute cmp s u2 p2
    ∧ (loginRoute cmp s u1 p1).status = 401 := by
  constructor <;> simp [loginRoute, localStrategy, h1, h2, h3]

/-- Witness for C6: against `storeEx`, logging in as the unknown `ghost` and
as `bob` with a wrong password concretely yield the same 401 response. -/
theorem login_failures_indistinguishable_witness :
    loginRoute cmpEx storeEx "ghost" "x" = loginRoute cmpEx storeEx "bob" "wrong"
    ∧ (loginRoute cmpEx storeEx "ghost" "x").status = 401 :=
  login_failures_indistinguishable cmpEx storeEx "ghost" "x" "bob" "wrong" bobU
    (by decide) (by decide) (by decide)

/-- C8: for every salt and plaintext `p`, `verify(p, hash(p))` is true, and
for distinct plaintexts `p ≠ q`, `verify(p, hash(q))` is false. -/
theorem verify_hash_roundtrip (salt p q : String) (h : p ≠ q) :
    comparePasswords p (hashPassword salt p) = true
    ∧ comparePasswords p (hashPassword salt q) = false := by
  constructor
  · simp [comparePasswords, hashPassword]
  · simp only [comparePasswords, hashPassword, beq_eq_false_iff_ne, ne_eq]
    intro hc
    exact h (string_append_cancel salt p q hc).symm.symm

/-- Witness for C8: the codec on the concrete plaintexts `a` and `b`. -/
theorem verify_hash_roundtrip_witness :
    ("a" : String) ≠ "b"
    ∧ (comparePasswords "a" (hashPassword "s" "a") = true
       ∧ comparePasswords "a" (hashPassword "s" "b") = false) :=
  ⟨by decide, verify_hash_roundtrip "s" "a" "b" (by decide)⟩

/-- C10: creation stamps the authenticated caller's id as the resource
owner, ignoring the body's `userId`: two creation requests differing only in
the body's `userId` produce identical responses and states, and every row in
the resulting store is either pre-existing or owned by the caller. -/
theorem created_resource_stamped_with_caller_id (caller : User) (s : MemStorage)
    (b1 b2 : InsertNews) (q1 q2 : InsertProject) (now : Nat)
    (hbt : b1.title = b2.title) (hbc : b1.content = b2.content)
    (hbf : b1.files = b2.files)
    (hqt : q1.title = q2.title) (hqd : q1.description = q2.description)
    (hqi : q1.imageUrl = q2.imageUrl) (hqu : q1.url = q2.url)
    (hqf : q1.files = q2.files) :
    postNewsRoute caller s b1 now = postNewsRoute caller s b2 now
  ∧ postProjectRoute caller s q1 now = postProjectRoute caller s q2 now
  ∧ (∀ n ∈ (postNewsRoute caller s b1 now).2.newsItems,
      n ∈ s.newsItems ∨ n.userId = caller.id)
  ∧ (∀ pr ∈ (postProjectRoute caller s q1 now).2.projectItems,
      pr ∈ s.projectItems ∨ pr.userId = caller.id) := by
  obtain ⟨t1, c1, f1, u1⟩ := b1
  obtain ⟨t2, c2, f2, u2⟩ := b2
  obtain ⟨pt1, pd1, pi1, pu1, pf1, po1⟩ := q1
  obtain ⟨pt2, pd2, pi2, pu2, pf2, po2⟩ := q2
  simp only at hbt hbc hbf hqt hqd hqi hqu hqf
  subst hbt hbc hbf hqt hqd hqi hqu hqf
  refine ⟨rfl, rfl, ?_, ?_⟩
  · intro n hn
    cases hg : isAdminGate (some caller) with
    | some r =>
      simp only [postNewsRoute, hg] at hn
      exact Or.inl hn
    | none =>
      simp only [postNewsRoute, hg, MemStorage.createNews] at hn
      rcases mem_setById News.id s.newsItems _ n hn with h | h
      · exact Or.inl h
      · subst h
        exact Or.inr rfl
  · intro pr hpr
    cases hg : isAdminGate (some caller) with
    | some r =>
      simp only [postProjectRoute, hg] at hpr
      exact Or.inl hpr
    | none =>
      simp only [postProjectRoute, hg, MemStorage.createProject] at hpr
      rcases mem_setById Project.id s.projectItems _ pr hpr with h | h
      · exact Or.inl h
      · subst h
        exact Or.inr rfl

/-- Witness for C10: the admin `adminU` posting bodies that differ only in
their `userId` (99 versus 5). -/
theorem created_resource_stamped_with_caller_id_witness :
    postNewsRoute adminU storeEx { title := "t", content := "c", files := none, userId := 99 } 5
      = postNewsRoute adminU storeEx { title := "t", content := "c", files := none, userId := 5 } 5
  ∧ postProjectRoute adminU storeEx
      { title := "p", description := "d", imageUrl := none, url := none, files := none, userId := 99 } 5
      = postProjectRoute adminU storeEx
      { title := "p", description := "d", imageUrl := none, url := none, files := none, userId := 5 } 5
  ∧ (∀ n ∈ (postNewsRoute adminU storeEx
        { title := "t", content := "c", files := none, userId := 99 } 5).2.newsItems,
      n ∈ storeEx.newsItems ∨ n.userId = adminU.id)
  ∧ (∀ pr ∈ (postProjectRoute adminU storeEx
        { title := "p", description := "d", imageUrl := none, url := none, files := none, userId := 99 } 5).2.projectItems,
      pr ∈ storeEx.projectItems ∨ pr.userId = adminU.id) :=
  created_resource_stamped_with_caller_id adminU storeEx
    { title := "t", content := "c", files := none, userId := 99 }
    { title := "t", content := "c", files := none, userId := 5 }
    { title := "p", description := "d", imageUrl := none, url := none, files := none, userId := 99 }
    { title := "p", description := "d", imageUrl := none, url := none, files := none, userId := 5 }
    5 rfl rfl rfl rfl rfl rfl rfl rfl

/-- C7: `updateUserProfile` applies exactly the provided patch fields
(username, avatar, bio), leaves every other field of the account — id, role,
password hash, creation timestamp — unchanged, leaves every other stored
account untouched, and for an unknown id returns absent and modifies
nothing. -/
theorem updateUserProfile_frame (s : MemStorage) (id : Nat) (p : UpdateUserProfile) :
    (s.users.find? (fun v => v.id = id) = none →
      s.updateUserProfile id p = (none, s))
  ∧ (∀ u, s.users.find? (fun v => v.id = id) = some u →
      ∃ r, (s.updateUserProfile id p).1 = some r
        ∧ r.role = u.role ∧ r.password = u.password ∧ r.id = u.id
        ∧ r.createdAt = u.createdAt
        ∧ r.username = p.username.getD u.username
        ∧ r.avatar = (match p.avatar with | some a => some a | none => u.avatar)
        ∧ r.biog = (match p.biog with | some b => some b | none => u.biog)
        ∧ (s.updateUserProfile id p).2.users
            = s.users.map (fun v => if v.id = id then r else v)) := by
  constructor
  · intro h
    simp [MemStorage.updateUserProfile, h]
  · intro u hu
    have hid : u.id = id := by simpa using List.find?_some hu
    have hmem : u ∈ s.users := List.mem_of_find?_eq_some hu
    refine ⟨{ u with
        username := p.username.getD u.username
        avatar := match p.avatar with | some a => some a | none => u.avatar
        biog := match p.biog with | some b => some b | none => u.biog },
      ?_, rfl, rfl, rfl, rfl, rfl, rfl, rfl, ?_⟩
    · simp [MemStorage.updateUserProfile, hu]
    · have hany : s.users.any (fun v => v.id = u.id) = true := by
        simp only [List.any_eq_true, decide_eq_true_eq]
        exact ⟨u, hmem, rfl⟩
      simp only [MemStorage.updateUserProfile, hu, setById]
      rw [if_pos (by simpa using hany)]
      simp [hid]

/-- Witness for C7: patching `aliceU`'s profile in `storeEx` with
`patchEx` (new username and bio). -/
theorem updateUserProfile_frame_witness :
    ∃ r, (storeEx.updateUserProfile 1 patchEx).1 = some r
      ∧ r.role = aliceU.role ∧ r.password = aliceU.password ∧ r.id = aliceU.id
      ∧ r.createdAt = aliceU.createdAt
      ∧ r.username = patchEx.username.getD aliceU.username
      ∧ r.avatar = (match patchEx.avatar with | some a => some a | none => aliceU.avatar)
      ∧ r.biog = (match patchEx.biog with | some b => some b | none => aliceU.biog)
      ∧ (storeEx.updateUserProfile 1 patchEx).2.users
          = storeEx.users.map (fun v => if v.id = 1 then r else v) :=
  (updateUserProfile_frame storeEx 1 patchEx).2 aliceU (by decide)

end TyxiqWeb
